import Mathlib

/-!
Shallow embedding of the slot-availability, appointment-lifecycle and chat
subsystems of the backend (src/backend/main.py, src/backend/chatbot.py).

Conventions:
* Python ints are `Nat` (all quantities involved are non-negative counts of
  minutes, ids, etc.); instants in time are `Int` minutes when a difference
  can be negative.
* SQLAlchemy queries `.filter(...).first()` become `List.find?`,
  `.filter(...).all()` becomes `List.filter`, and an in-place mutation of the
  row found by `.first()` becomes `updateFirst` (only the first match is
  mutated, as in the source).
* `raise HTTPException(code, msg)` becomes `Except.error ⟨code, msg⟩`.
* `datetime.strptime(s, "%I:%M %p")` is modelled after CPython's `_strptime`
  regex semantics: hour `1[0-2]|0[1-9]|[1-9]`, minute `[0-5]\d|\d`, one or
  more whitespace characters for the literal space, case-insensitive AM/PM,
  and the whole string must be consumed.
-/

namespace SW

/-! ## Time-of-day conversion (main.py lines 1565-1582) -/

/-- Python `f"{n:02d}"` for a non-negative `n`. -/
def pad2 (n : Nat) : String :=
  (if n < 10 then "0" else "") ++ toString n

/-- `minutes_to_time_str` (main.py line 1574): convert minutes since midnight
to a string like "09:00 AM". -/
def minutes_to_time_str (minutes : Nat) : String :=
  let hours := minutes / 60
  let mins := minutes % 60
  let period := if hours < 12 then "AM" else "PM"
  let display_hours := if hours ≤ 12 then hours else hours - 12
  let display_hours := if display_hours = 0 then 12 else display_hours
  pad2 display_hours ++ ":" ++ pad2 mins ++ " " ++ period

/-- The ASCII whitespace characters matched by the regex class `\s`. -/
def isWsp (c : Char) : Bool :=
  c = ' ' || c = '\t' || c = '\n' || c = '\r' || c = '\x0b' || c = '\x0c'

/-- `%I` of `strptime`: an hour `1[0-2]|0[1-9]|[1-9]` (CPython TimeRE). -/
def parseHour12 (cs : List Char) : Option (Nat × List Char) :=
  match cs with
  | c1 :: c2 :: rest =>
    if c1 = '1' && '0' ≤ c2 && c2 ≤ '2' then some (10 + (c2.toNat - 48), rest)
    else if c1 = '0' && '1' ≤ c2 && c2 ≤ '9' then some (c2.toNat - 48, rest)
    else if '1' ≤ c1 && c1 ≤ '9' then some (c1.toNat - 48, c2 :: rest)
    else none
  | [c1] => if '1' ≤ c1 && c1 ≤ '9' then some (c1.toNat - 48, []) else none
  | [] => none

/-- `%M` of `strptime`: a minute `[0-5]\d|\d` (CPython TimeRE). -/
def parseMinute (cs : List Char) : Option (Nat × List Char) :=
  match cs with
  | c1 :: c2 :: rest =>
    if '0' ≤ c1 && c1 ≤ '5' && c2.isDigit then
      some ((c1.toNat - 48) * 10 + (c2.toNat - 48), rest)
    else if c1.isDigit then some (c1.toNat - 48, c2 :: rest)
    else none
  | [c1] => if c1.isDigit then some (c1.toNat - 48, []) else none
  | [] => none

/-- One or more whitespace characters (a literal blank in a `strptime` format
is compiled to the regex `\s+`). -/
def parseWsp1 (cs : List Char) : Option (List Char) :=
  match cs with
  | c :: rest =>
    if isWsp c then some (rest.dropWhile isWsp) else none
  | [] => none

/-- `%p` of `strptime`: `AM` or `PM`, case-insensitive. Returns `true` for PM. -/
def parseAmPm (cs : List Char) : Option (Bool × List Char) :=
  match cs with
  | c1 :: c2 :: rest =>
    if (c1 = 'A' || c1 = 'a') && (c2 = 'M' || c2 = 'm') then some (false, rest)
    else if (c1 = 'P' || c1 = 'p') && (c2 = 'M' || c2 = 'm') then some (true, rest)
    else none
  | _ => none

/-- `datetime.strptime(s, "%I:%M %p")` followed by `hour * 60 + minute`:
`some` of the minutes since midnight, or `none` when the string does not
parse (the source's `except:` branch). The 12-hour adjustment is CPython's:
AM with hour 12 gives 0, PM with hour ≠ 12 adds 12. -/
def parse12 (s : String) : Option Nat := do
  let (h, r1) ← parseHour12 s.data
  let r2 ← match r1 with
    | ':' :: t => some t
    | _ => none
  let (m, r3) ← parseMinute r2
  let r4 ← parseWsp1 r3
  let (pm, r5) ← parseAmPm r4
  if r5 = [] then
    let hour := if pm then (if h = 12 then 12 else h + 12)
                else (if h = 12 then 0 else h)
    some (hour * 60 + m)
  else none

/-- `parse_time_to_minutes` (main.py line 1565): total, returns 0 on any
string that does not parse. -/
def parse_time_to_minutes (s : String) : Nat :=
  (parse12 s).getD 0

/-- A well-formed 12-hour time string "HH:MM AM"/"HH:MM PM" presented by its
hour (1-12), minute (0-59) and AM/PM designator (`true` for PM). This is the
canonical shape `minutes_to_time_str` emits. -/
def renderTime12 (h m : Nat) (pm : Bool) : String :=
  pad2 h ++ ":" ++ pad2 m ++ " " ++ (if pm then "PM" else "AM")

/-! ## Candidate-slot generation (main.py lines 1633-1639)

The source's `while current_minutes + slot_duration <= end_minutes` loop.
The source does not terminate when `slot_duration = 0`; the embedding
returns `[]` there, and every theorem about the loop assumes
`0 < slot_duration`. -/

/-- The minute values visited by the generation loop. -/
def slotMins (endM d cur : Nat) : List Nat :=
  if _h : 0 < d ∧ cur + d ≤ endM then cur :: slotMins endM d (cur + d)
  else []
termination_by endM - cur
decreasing_by simp_wf; omega

/-- The strings appended by the generation loop (`all_slots` in the source). -/
def slotLoop (endM d cur : Nat) : List String :=
  if _h : 0 < d ∧ cur + d ≤ endM then
    minutes_to_time_str cur :: slotLoop endM d (cur + d)
  else []
termination_by endM - cur
decreasing_by simp_wf; omega

/-! ## Calendar dates

A parsed `datetime.strptime(date, "%Y-%m-%d")` value: a proleptic Gregorian
calendar date (the time part is midnight). `toordinal`/`weekday` follow
CPython's `datetime` (an out-of-scope library primitive): day 1 is
0001-01-01, a Monday, and `weekday()` has Monday = 0 … Sunday = 6. -/

structure Date where
  year : Nat
  month : Nat
  day : Nat
deriving DecidableEq, Repr

/-- Gregorian leap year. -/
def isLeap (y : Nat) : Bool :=
  y % 4 = 0 && (y % 100 ≠ 0 || y % 400 = 0)

/-- Days in a non-leap year strictly before month `m` (month 1-12). -/
def daysBeforeMonth (m : Nat) : Nat :=
  [0, 0, 31, 59, 90, 120, 151, 181, 212, 243, 273, 304, 334].getD m 0

/-- CPython `date.toordinal()`: day count with 0001-01-01 = 1. -/
def Date.toord (dt : Date) : Nat :=
  365 * (dt.year - 1) + (dt.year - 1) / 4 - (dt.year - 1) / 100
    + (dt.year - 1) / 400 + daysBeforeMonth dt.month
    + (if 2 < dt.month && isLeap dt.year then 1 else 0) + dt.day

/-- CPython `date.weekday()`: Monday = 0 … Sunday = 6. -/
def Date.weekday (dt : Date) : Nat :=
  (dt.toord - 1) % 7

/-- The weekday names as indexed in the source
(`['Monday', ..., 'Sunday'][day_of_week]`). -/
def dayName (w : Nat) : String :=
  ["Monday", "Tuesday", "Wednesday", "Thursday", "Friday", "Saturday",
    "Sunday"].getD w ""

/-- Midnight of `dt` as minutes on the absolute ordinal time line; used to
model datetime subtraction (`total_seconds() / 3600` at minute resolution). -/
def Date.minutes (dt : Date) : Int :=
  (dt.toord : Int) * 1440

/-! ## Relational rows (models.py) -/

structure Doctor where
  id : Nat
  name : String
  is_available : Bool
deriving DecidableEq, Repr

structure DoctorAvailability where
  id : Nat
  doctor_id : Nat
  day_of_week : Nat
  start_time : String
  end_time : String
  slot_duration : Nat
  is_active : Bool
deriving DecidableEq, Repr

structure Appointment where
  id : Nat
  user_id : Nat
  doctor_id : Nat
  appointment_date : Date
  appointment_time : String
  type : String
  location : String
  status : String
  notes : String
  can_reschedule : Bool
deriving DecidableEq, Repr

structure Visit where
  user_id : Nat
  doctor_id : Nat
  visit_date : Date
  time_start : String
  time_end : String
  diagnosis : String
  type : String
  location : String
  notes : String
  status : String
deriving DecidableEq, Repr

/-- The relevant slice of the relational store. -/
structure DB where
  doctors : List Doctor
  availabilities : List DoctorAvailability
  appointments : List Appointment
  visits : List Visit
deriving DecidableEq, Repr

/-- `raise HTTPException(code, msg)`. -/
structure HTTPError where
  code : Nat
  msg : String
deriving DecidableEq, Repr

/-- Mutating the single row returned by `.filter(...).first()`: only the
first element satisfying `p` is replaced by its image under `f`. -/
def updateFirst (p : α → Bool) (f : α → α) : List α → List α
  | [] => []
  | a :: as => if p a then f a :: as else a :: updateFirst p f as

/-! ## Available-slots endpoint, first definition (main.py lines 1136-1185)

Both definitions are registered on `GET /doctors/{doctor_id}/available-slots`;
the HTTP router matches routes in registration order, so this first one is
the one that serves requests. It ignores `DoctorAvailability` and uses a
hardcoded list of fifteen 30-minute slots. -/

def all_slots_v1 : List String :=
  ["09:00 AM", "09:30 AM", "10:00 AM", "10:30 AM",
   "11:00 AM", "11:30 AM", "12:00 PM", "12:30 PM",
   "02:00 PM", "02:30 PM", "03:00 PM", "03:30 PM",
   "04:00 PM", "04:30 PM", "05:00 PM"]

structure SlotsV1Result where
  doctor_id : Nat
  doctor_name : String
  available_slots : List String
  booked_slots : List String
deriving DecidableEq, Repr

/-- The non-cancelled appointments of `doctor_id` on `date`, in store order
(the booked-appointments query shared by both endpoint definitions). -/
def bookedAppointments (db : DB) (doctor_id : Nat) (date : Date) :
    List Appointment :=
  db.appointments.filter fun a =>
    a.doctor_id == doctor_id && a.appointment_date == date
      && a.status != "cancelled"

/-- First `get_available_slots` definition (main.py line 1137). The date
argument is the already-parsed `%Y-%m-%d` value (a malformed date string is
rejected with a 400 before this logic runs). -/
def get_available_slots_v1 (db : DB) (doctor_id : Nat) (date : Date) :
    Except HTTPError SlotsV1Result :=
  match db.doctors.find? (fun d => d.id == doctor_id && d.is_available) with
  | none => .error ⟨404, "Doctor not found or not available"⟩
  | some doctor =>
    let booked_slots := (bookedAppointments db doctor_id date).map
      (·.appointment_time)
    let available_slots := all_slots_v1.filter (fun s => ¬ s ∈ booked_slots)
    .ok ⟨doctor_id, doctor.name, available_slots, booked_slots⟩

/-! ## Available-slots endpoint, second definition (main.py lines 1585-1662) -/

structure SlotsResult where
  doctor_id : Nat
  doctor_name : String
  day_of_week : Option String
  available_slots : List String
  booked_slots : List String
  message : Option String
  working_hours : Option String
  slot_duration : Option Nat
deriving DecidableEq, Repr

/-- The candidate slots generated from one availability row
(main.py lines 1628-1639). -/
def candidateSlots (av : DoctorAvailability) : List String :=
  slotLoop (parse_time_to_minutes av.end_time) av.slot_duration
    (parse_time_to_minutes av.start_time)

/-- The active availability row the endpoint finds for a weekday
(main.py lines 1612-1616). -/
def findAvailability (db : DB) (doctor_id w : Nat) :
    Option DoctorAvailability :=
  db.availabilities.find? fun a =>
    a.doctor_id == doctor_id && a.day_of_week == w && a.is_active

/-- Second `get_available_slots` definition (main.py line 1586): generates
candidates from the doctor's active availability row for the date's weekday
and subtracts booked strings. -/
def get_available_slots (db : DB) (doctor_id : Nat) (date : Date) :
    Except HTTPError SlotsResult :=
  match db.doctors.find? (fun d => d.id == doctor_id && d.is_available) with
  | none => .error ⟨404, "Doctor not found or not available"⟩
  | some doctor =>
    let day_of_week := date.weekday
    match findAvailability db doctor_id day_of_week with
    | none =>
      .ok ⟨doctor_id, doctor.name, none, [], [],
        some ("Doctor is not available on " ++ dayName day_of_week),
        none, none⟩
    | some availability =>
      let all_slots := candidateSlots availability
      let booked_slots := (bookedAppointments db doctor_id date).map
        (·.appointment_time)
      let available_slots := all_slots.filter (fun s => ¬ s ∈ booked_slots)
      .ok ⟨doctor_id, doctor.name, some (dayName day_of_week),
        available_slots, booked_slots, none,
        some (availability.start_time ++ " - " ++ availability.end_time),
        some availability.slot_duration⟩

/-! ## Appointment lifecycle (main.py lines 1016-1133, 1229-1273) -/

/-- `AppointmentCreate` (main.py line 87), with the date already parsed. -/
structure AppointmentCreate where
  doctor_id : Nat
  appointment_date : Date
  appointment_time : String
  type : String
  notes : String
deriving DecidableEq, Repr

/-- `AppointmentUpdate` (main.py line 95): `none` models an absent/falsy
field, which the update leaves untouched. -/
structure AppointmentUpdate where
  appointment_date : Option Date
  appointment_time : Option String
  type : Option String
  notes : Option String
deriving DecidableEq, Repr

/-- `create_appointment` (main.py line 1017): requires the doctor to exist
and the (doctor, date, time) slot not to be held by a non-cancelled
appointment; the new row gets status "upcoming", `can_reschedule = true` and
a generated location. `new_id` stands for the autoincrement primary key. -/
def create_appointment (db : DB) (current_user : Nat) (new_id : Nat)
    (appointment : AppointmentCreate) : Except HTTPError DB :=
  match db.doctors.find? (fun d => d.id == appointment.doctor_id) with
  | none => .error ⟨404, "Doctor not found"⟩
  | some doctor =>
    match db.appointments.find? (fun a =>
        a.doctor_id == appointment.doctor_id
          && a.appointment_date == appointment.appointment_date
          && a.appointment_time == appointment.appointment_time
          && a.status != "cancelled") with
    | some _ => .error ⟨400, "This time slot is already booked"⟩
    | none =>
      .ok { db with appointments := db.appointments ++
        [{ id := new_id
           user_id := current_user
           doctor_id := appointment.doctor_id
           appointment_date := appointment.appointment_date
           appointment_time := appointment.appointment_time
           type := appointment.type
           location := "Campus Health Center, Room " ++ toString doctor.id
             ++ "01"
           status := "upcoming"
           notes := appointment.notes
           can_reschedule := true }] }

/-- Applies the truthy fields of an `AppointmentUpdate` to a row
(main.py lines 1100-1107). These lines are unreachable in the program —
`update_appointment` raises before them whenever the row is found and not
cancelled, see below — but they are kept as documentation of what the dead
code would do. -/
def applyUpdates (u : AppointmentUpdate) (a : Appointment) : Appointment :=
  let a := match u.appointment_date with
    | some d => { a with appointment_date := d }
    | none => a
  let a := match u.appointment_time with
    | some t => { a with appointment_time := t }
    | none => a
  let a := match u.type with
    | some t => { a with type := t }
    | none => a
  match u.notes with
  | some n => { a with notes := n }
  | none => a

/-- `update_appointment` (main.py line 1075). `now` is `datetime.now()` in
minutes on the absolute time line (it is never actually compared: see
below). The `Appointment.appointment_date` column is a `Date`
(models.py line 158, non-nullable), so the row's value is a
`datetime.date`, which is always truthy; the guarded 12-hour check on
line 1095 then evaluates `appointment.appointment_date - datetime.now()` —
a `datetime.date` minus a `datetime.datetime` — and CPython raises
`TypeError: unsupported operand type(s)`. No handler catches it, so the
framework answers 500: the too-late rejection and the field-update lines
below the check are unreachable. -/
def update_appointment (db : DB) (current_user appointment_id : Nat)
    (updates : AppointmentUpdate) (now : Int) : Except HTTPError DB :=
  let _ := updates
  let _ := now
  match db.appointments.find? (fun a =>
      a.id == appointment_id && a.user_id == current_user) with
  | none => .error ⟨404, "Appointment not found"⟩
  | some appointment =>
    if appointment.status = "cancelled" then
      .error ⟨400, "Cannot modify a cancelled appointment"⟩
    else
      .error ⟨500,
        "TypeError: unsupported operand type(s) for -: 'datetime.date' and 'datetime.datetime'"⟩

/-- `cancel_appointment` (main.py line 1115): sets status "cancelled" and
`can_reschedule = false` on the caller's appointment. -/
def cancel_appointment (db : DB) (current_user appointment_id : Nat) :
    Except HTTPError DB :=
  match db.appointments.find? (fun a =>
      a.id == appointment_id && a.user_id == current_user) with
  | none => .error ⟨404, "Appointment not found"⟩
  | some _ =>
    let appointments := updateFirst
      (fun a => a.id == appointment_id && a.user_id == current_user)
      (fun a => { a with status := "cancelled", can_reschedule := false })
      db.appointments
    .ok { db with appointments := appointments }

/-- Python `x or y` on an optional string: `y` when `x` is `None` or empty
(falsy), else the string in `x`. -/
def pyOr (x : Option String) (y : String) : String :=
  match x with
  | some v => if v = "" then y else v
  | none => y

/-- `complete_appointment` (main.py line 1230): looks the appointment up by
id only — no ownership, role or current-status check — sets its status to
"completed" and appends a Visit row copied from it. `current_user` is the
authenticated caller, unused by the query. -/
def complete_appointment (db : DB) (current_user appointment_id : Nat)
    (diagnosis notes : Option String) : Except HTTPError DB :=
  let _ := current_user
  match db.appointments.find? (fun a => a.id == appointment_id) with
  | none => .error ⟨404, "Appointment not found"⟩
  | some appointment =>
    let appointments := updateFirst (fun a => a.id == appointment_id)
      (fun a => { a with status := "completed" }) db.appointments
    .ok { db with
      appointments := appointments
      visits := db.visits ++
        [{ user_id := appointment.user_id
           doctor_id := appointment.doctor_id
           visit_date := appointment.appointment_date
           time_start := appointment.appointment_time
           time_end := appointment.appointment_time
           diagnosis := pyOr diagnosis "General Consultation"
           type := appointment.type
           location := appointment.location
           notes := pyOr notes (pyOr (some appointment.notes)
             "Appointment completed")
           status := "completed" }] }

/-- The appointment-lifecycle operations (for the status-transition
invariant). -/
inductive Op where
  | create (user new_id : Nat) (req : AppointmentCreate)
  | update (user id : Nat) (upd : AppointmentUpdate) (now : Int)
  | cancel (user id : Nat)
  | complete (user id : Nat) (diagnosis notes : Option String)
deriving DecidableEq, Repr

/-- One lifecycle operation applied to the store; a rejected request leaves
the store unchanged (every `raise` in the source happens before any
mutation). -/
def step (db : DB) : Op → DB
  | .create u i req => (create_appointment db u i req).toOption.getD db
  | .update u i upd now => (update_appointment db u i upd now).toOption.getD db
  | .cancel u i => (cancel_appointment db u i).toOption.getD db
  | .complete u i d n => (complete_appointment db u i d n).toOption.getD db

/-! ## Chat gateway (chatbot.py) -/

/-- `needle` occurs as a contiguous run somewhere in `hay`. -/
def listInfixOf (needle : List Char) : List Char → Bool
  | [] => needle.isEmpty
  | c :: rest => needle.isPrefixOf (c :: rest) || listInfixOf needle rest

/-- Python `needle in hay` on strings. -/
def strContains (hay needle : String) : Bool :=
  listInfixOf needle.data hay.data

/-- One {role, content} turn of the in-memory conversation buffer. -/
structure ChatTurn where
  role : String
  content : String
deriving DecidableEq, Repr

/-- The `action_patterns` table of `detect_action_intent`
(chatbot.py lines 146-167). -/
def action_patterns : List (String × List String) :=
  [("add_medical",
    ["add my", "add an", "add a", "create a", "create my",
     "new allergy", "new medication", "new condition",
     "add allergy", "add medication", "record my"]),
   ("edit_profile",
    ["change my", "update my", "edit my", "modify my",
     "change the", "update the", "edit the"]),
   ("book_appointment",
    ["book", "schedule", "make an appointment", "set up appointment",
     "see a doctor", "appointment with"]),
   ("delete_entry",
    ["delete my", "remove my", "delete the", "remove the"]),
   ("emergency",
    ["call emergency", "emergency now", "help me now",
     "i need help", "urgent help", "emergency call"])]

/-- `detect_action_intent` (chatbot.py line 143): the first action whose
keyword list has a member contained in the lowercased message. -/
def detect_action_intent (message : String) : Option String :=
  let message_lower := message.toLower
  (action_patterns.find? fun kv =>
    kv.2.any fun keyword => strContains message_lower keyword).map (·.1)

/-- `get_guidance_reminder` (chatbot.py line 187). -/
def get_guidance_reminder (action_type : String) : String :=
  if action_type = "add_medical" then
    "\n⚠️ REMINDER: User wants to add a medical entry. Guide them to 'Add Medical Entry' page - DO NOT say you'll add it yourself!"
  else if action_type = "edit_profile" then
    "\n⚠️ REMINDER: User wants to edit their profile. Guide them to 'Edit Profile' page - DO NOT say you'll update it yourself!"
  else if action_type = "book_appointment" then
    "\n⚠️ REMINDER: User wants to book an appointment. Guide them to 'Appointments' page - DO NOT say you'll book it yourself!"
  else if action_type = "delete_entry" then
    "\n⚠️ REMINDER: User wants to delete an entry. Explain how to do it from Dashboard - DO NOT say you'll delete it yourself!"
  else if action_type = "emergency" then
    "\n⚠️ CRITICAL: This is an emergency. Direct them to Emergency Request page or emergency numbers IMMEDIATELY!"
  else ""

/-- The `fallback_responses` table of `ai_reply` (chatbot.py lines 206-220),
in dict insertion order. -/
def fallback_responses : List (String × String) :=
  [("hello", "Hello! I'm the CareConnect assistant for Al Akhawayn University. I can help you understand how to use our health center features. How can I guide you today?"),
   ("hi", "Hi! I'm here to guide you through CareConnect's features. What would you like to know about?"),
   ("appointment", "To book an appointment:\n1. Click 'Appointments' in the navigation\n2. Select a doctor\n3. Choose date and time\n4. Click 'Book Appointment'\n\nThe system will save it to the database!"),
   ("book", "I can't book appointments for you, but I'll guide you! Go to the 'Appointments' section and follow the booking steps. Need help understanding any part?"),
   ("emergency", "⚠️ FOR EMERGENCIES:\n• Click 'Emergency Request' in navigation\n• Or call 2222 immediately\n• Campus Security: 0535-86-0103\n\nIs this urgent?"),
   ("urgent", "⚠️ If this is a medical emergency:\n1. Use the Emergency Request page NOW\n2. Or call 2222\n3. For life-threatening: Call campus security\n\nDon't delay - get help immediately!"),
   ("add", "I can't add entries for you, but here's how:\n1. Go to Dashboard\n2. Click 'Add Medical Entry'\n3. Fill in the details\n4. Click Save\n\nWhat type of entry do you need to add?"),
   ("profile", "To edit your profile:\n1. Go to 'Student Profile'\n2. Click 'Edit Profile'\n3. Update the fields\n4. Click 'Save Changes'\n\nYour AUI email will auto-update if you change your name!"),
   ("help", "I can guide you with:\n• How to book appointments\n• How to add medical records\n• How to update your profile\n• How to use emergency features\n• General health information\n\nWhat would you like to know about?"),
   ("records", "To access medical records:\n1. Go to 'Medical Dashboard'\n2. Scroll to 'Medical Information'\n3. View or click 'Add Medical Entry' to add new ones\n\nAll changes save to the database instantly!"),
   ("doctor", "To see a doctor:\n1. Go to 'Appointments'\n2. Browse available doctors\n3. Select one and choose time\n4. Book the appointment\n\nWould you like to know about our doctors?"),
   ("email", "AUI email format: (first letter).(lastname)@aui.ma\n\nExample: Alexandra Miller → a.miller@aui.ma\n\nYour email auto-updates when you change your name in Edit Profile!"),
   ("default", "I'm here to guide you through CareConnect! I can explain:\n• How to use appointments\n• How to manage medical records\n• How to update your profile\n• Emergency procedures\n\nWhat would you like to know?")]

/-- The canned reply the fallback mode picks for a message: the response of
the first table key contained in the lowercased message, else the default
response (the loop starts from `fallback_responses["default"]` and breaks on
the first match). -/
def fallbackReply (message : String) : String :=
  match fallback_responses.find?
      (fun kv => strContains message.toLower kv.1) with
  | some kv => kv.2
  | none => "I'm here to guide you through CareConnect! I can explain:\n• How to use appointments\n• How to manage medical records\n• How to update your profile\n• Emergency procedures\n\nWhat would you like to know?"

/-- The note appended in fallback mode when an action intent is detected. -/
def fallbackActionNote : String :=
  "\n\nNote: I can guide you through the process, but I can't perform actions for you. I'll show you exactly how to do it yourself!"

/-- Caller-supplied user profile fields (`user_context`). -/
structure UserCtx where
  name : Option String
  student_id : Option String
  department : Option String
  major : Option String
deriving DecidableEq, Repr

/-- `SYSTEM_PROMPT` (chatbot.py line 35), abridged: the first and last
sentences of the source's fixed instruction block, standing for the whole.
The prose is product copy; no theorem depends on its text, and every
theorem about `ai_reply` holds for any value of this string. -/
def SYSTEM_PROMPT : String :=
  "You are a helpful AI assistant for Al Akhawayn University's health center named CareConnect. [...] Remember: You GUIDE users to features - you DON'T perform actions for them!"

/-- The prompt assembly of `ai_reply`'s normal path
(chatbot.py lines 250-275). -/
def build_full_prompt (action : Option String) (conversation : List ChatTurn)
    (user_context : Option UserCtx) (message : String) : String :=
  let p := SYSTEM_PROMPT
  let p := match action with
    | some a => p ++ get_guidance_reminder a
    | none => p
  let p := p ++ "\n\n"
  let p := if conversation ≠ [] then
      p ++ "Previous conversation:\n"
        ++ String.join ((conversation.drop (conversation.length - 8)).map
          fun msg =>
            (if msg.role = "user" then "User" else "Assistant")
              ++ ": " ++ msg.content ++ "\n")
        ++ "\n"
    else p
  let p := match user_context with
    | some ctx =>
      let p := p ++ "Current user: " ++ ctx.name.getD "Unknown" ++ " (ID: "
        ++ ctx.student_id.getD "N/A" ++ ")\n"
      let p := match ctx.department with
        | some dep => p ++ "Department: " ++ dep ++ " - "
            ++ ctx.major.getD "N/A" ++ "\n"
        | none => p
      p ++ "\n"
    | none => p
  p ++ "User's message: " ++ message
    ++ "\n\nYour response (remember - GUIDE, don't act!):"

/-- What `ai_reply` hands back to the HTTP layer: the keys of the three
return dicts, with `none` for a key the dict does not carry. -/
structure ChatResult where
  reply : String
  conversation_id : String
  mode : Option String
  note : Option String
  model : Option String
  error : Option String
  action_detected : Option Bool
  action_type : Option String
deriving DecidableEq, Repr

/-- The error-path reply construction (chatbot.py lines 327-338). -/
def errorFallbackReply (message : String) : String :=
  let message_lower := message.toLower
  "I apologize, but I'm having trouble connecting right now. " ++
    (if strContains message_lower "emergency"
        || strContains message_lower "urgent" then
      "⚠️ If this is an emergency, please:\n• Use Emergency Request page\n• Call 2222\n• Or call Campus Security: 0535-86-0103"
    else if strContains message_lower "appointment" then
      "For appointments, go to the 'Appointments' page in the navigation."
    else if strContains message_lower "profile" then
      "To edit your profile, go to 'Student Profile' → 'Edit Profile'."
    else
      "Please try rephrasing your question, or contact the health center directly.")

/-- `ai_reply` (chatbot.py line 198). `aiAvailable` is the module's
`AI_AVAILABLE and model is not None`; `modelCall` abstracts the external
generative-model API: `Except.error` is an exception raised by the call (or
by reading `response.text`), caught by the source's bare `except`. `conv` is
`conversations[conversation_id]` (empty when absent); the returned list is
that buffer after the call. The function is total: no path throws. -/
def ai_reply (aiAvailable : Bool) (modelCall : String → Except String String)
    (conv : List ChatTurn) (message : String) (conversation_id : String)
    (user_context : Option UserCtx) : ChatResult × List ChatTurn :=
  if ¬ aiAvailable then
    let reply := fallbackReply message
    let action_check := detect_action_intent message
    let reply := if action_check.isSome then reply ++ fallbackActionNote
      else reply
    (⟨reply, conversation_id, some "fallback",
      some "⚠️ Limited mode - Add GOOGLE_API_KEY to .env for full AI features.",
      none, none, none, none⟩, conv)
  else
    let action_check := detect_action_intent message
    let full_prompt := build_full_prompt action_check conv user_context message
    match modelCall full_prompt with
    | .ok reply =>
      let conversation := conv ++
        [⟨"user", message⟩, ⟨"assistant", reply⟩]
      let conversation := if conversation.length > 20 then
          conversation.drop (conversation.length - 20)
        else conversation
      (⟨reply, conversation_id, none, none, some "gemini-2.0-flash-exp",
        none, some action_check.isSome, action_check⟩, conversation)
    | .error e =>
      (⟨errorFallbackReply message, conversation_id, some "error_fallback",
        none, none, some e, none, none⟩, conv)

/-! ## Helper lemmas on the generation loop -/

theorem slotMins_eq_range_aux (d : Nat) (hd : 0 < d) (e : Nat) :
    ∀ n c, e - c ≤ n →
      slotMins e d c = (List.range ((e - c) / d)).map (fun i => c + i * d) := by
  intro n
  induction n with
  | zero =>
    intro c hc
    rw [slotMins, dif_neg (by omega)]
    have h0 : (e - c) / d = 0 := by
      have : e - c = 0 := by omega
      simp [this]
    simp [h0]
  | succ n ih =>
    intro c hc
    by_cases h : c + d ≤ e
    · rw [slotMins, dif_pos ⟨hd, h⟩, ih (c + d) (by omega)]
      have hsplit : (e - c) / d = (e - (c + d)) / d + 1 := by
        have h1 : e - c = (e - (c + d)) + d := by omega
        rw [h1, Nat.add_div_right _ hd]
      rw [hsplit, List.range_succ_eq_map, List.map_cons, List.map_map]
      refine congrArg₂ _ (by simp) ?_
      apply List.map_congr_left
      intro i _
      simp [Function.comp, Nat.succ_eq_add_one]
      ring
    · rw [slotMins, dif_neg (by omega)]
      have h0 : (e - c) / d = 0 := Nat.div_eq_of_lt (by omega)
      simp [h0]

/-- The minute values visited by the loop are exactly
`start, start + d, …`, one for each `i < (end - start) / d`. -/
theorem slotMins_eq_range (e d c : Nat) (hd : 0 < d) :
    slotMins e d c = (List.range ((e - c) / d)).map (fun i => c + i * d) :=
  slotMins_eq_range_aux d hd e (e - c) c le_rfl

theorem slotLoop_eq_map_aux (e d : Nat) :
    ∀ n c, e - c ≤ n →
      slotLoop e d c = (slotMins e d c).map minutes_to_time_str := by
  intro n
  induction n with
  | zero =>
    intro c hc
    rw [slotLoop, slotMins]
    by_cases h : 0 < d ∧ c + d ≤ e
    · omega
    · rw [dif_neg h, dif_neg h]; rfl
  | succ n ih =>
    intro c hc
    rw [slotLoop, slotMins]
    by_cases h : 0 < d ∧ c + d ≤ e
    · rw [dif_pos h, dif_pos h, List.map_cons, ih (c + d) (by omega)]
    · rw [dif_neg h, dif_neg h]; rfl

/-- The strings the loop emits are the rendered minute values. -/
theorem slotLoop_eq_map (e d c : Nat) :
    slotLoop e d c = (slotMins e d c).map minutes_to_time_str :=
  slotLoop_eq_map_aux e d (e - c) c le_rfl

/-! ## Claim theorems -/

theorem c2_roundtrip_aux : ∀ pm : Bool, ∀ h, h < 13 → ∀ m, m < 60 → 1 ≤ h →
    minutes_to_time_str (parse_time_to_minutes (renderTime12 h m pm)) =
      renderTime12 h m pm := by
  intro pm
  cases pm <;> decide

/-- C2: for every well-formed 12-hour time string — hour 01-12, minute
00-59, AM or PM, including the boundary cases "12:00 AM" (0 minutes since
midnight) and "12:00 PM" (720 minutes) — rendering the parsed
minutes-since-midnight value gives the original string back. -/
theorem c2_time_roundtrip (h m : Nat) (pm : Bool) (h1 : 1 ≤ h) (h2 : h ≤ 12)
    (h3 : m < 60) :
    minutes_to_time_str (parse_time_to_minutes (renderTime12 h m pm)) =
      renderTime12 h m pm :=
  c2_roundtrip_aux pm h (by omega) m h3 h1

/-- Witness for C2 at the two boundary cases: "12:00 AM" parses to 0,
"12:00 PM" to 720, and the round trip holds at "12:00 AM". -/
theorem c2_time_roundtrip_witness :
    parse_time_to_minutes "12:00 AM" = 0 ∧
    parse_time_to_minutes "12:00 PM" = 720 ∧
    renderTime12 12 0 false = "12:00 AM" ∧
    minutes_to_time_str (parse_time_to_minutes (renderTime12 12 0 false)) =
      renderTime12 12 0 false :=
  ⟨by decide, by decide, by decide,
    c2_time_roundtrip 12 0 false (by decide) (by decide) (by decide)⟩

/-- C1: for an active availability window `[start, end)` with positive slot
duration `d`, the candidate-slot generation emits exactly
`(end - start) / d` slots; the `i`-th emitted slot is the rendering of
`start + i * d` minutes (a non-negative multiple of `d` past `start`), and
the underlying minute values are strictly increasing (chronological
order). -/
theorem c1_slot_generation (av : DoctorAvailability)
    (hd : 0 < av.slot_duration)
    (_hse : parse_time_to_minutes av.start_time ≤
      parse_time_to_minutes av.end_time) :
    (candidateSlots av).length =
      (parse_time_to_minutes av.end_time -
        parse_time_to_minutes av.start_time) / av.slot_duration ∧
    candidateSlots av =
      (List.range ((parse_time_to_minutes av.end_time -
          parse_time_to_minutes av.start_time) / av.slot_duration)).map
        (fun i => minutes_to_time_str
          (parse_time_to_minutes av.start_time + i * av.slot_duration)) ∧
    List.Pairwise (· < ·)
      (slotMins (parse_time_to_minutes av.end_time) av.slot_duration
        (parse_time_to_minutes av.start_time)) := by
  have hmins := slotMins_eq_range (parse_time_to_minutes av.end_time)
    av.slot_duration (parse_time_to_minutes av.start_time) hd
  have hloop := slotLoop_eq_map (parse_time_to_minutes av.end_time)
    av.slot_duration (parse_time_to_minutes av.start_time)
  have hcand : candidateSlots av =
      (List.range ((parse_time_to_minutes av.end_time -
          parse_time_to_minutes av.start_time) / av.slot_duration)).map
        (fun i => minutes_to_time_str
          (parse_time_to_minutes av.start_time + i * av.slot_duration)) := by
    rw [candidateSlots, hloop, hmins, List.map_map]
    rfl
  refine ⟨?_, hcand, ?_⟩
  · rw [hcand, List.length_map, List.length_range]
  · rw [hmins]
    refine List.Pairwise.map _ ?_ (List.pairwise_lt_range _)
    intro a b hab
    exact Nat.add_lt_add_left (mul_lt_mul_of_pos_right hab hd) _

/-- Witness for C1: the 09:00 AM - 05:00 PM window with 30-minute slots
generates 16 candidates. -/
theorem c1_slot_generation_witness :
    (candidateSlots ⟨1, 1, 2, "09:00 AM", "05:00 PM", 30, true⟩).length =
      (parse_time_to_minutes "05:00 PM" - parse_time_to_minutes "09:00 AM")
        / 30 :=
  (c1_slot_generation ⟨1, 1, 2, "09:00 AM", "05:00 PM", 30, true⟩
    (by decide) (by decide)).1

/-- C10: `parse_time_to_minutes` is total; on any string the 12-hour parse
rejects it returns 0, so slot generation over an availability row whose
`start_time` is malformed behaves exactly as if the start were "12:00 AM"
(midnight). -/
theorem c10_malformed_time_is_midnight (s : String) (av : DoctorAvailability)
    (h : parse12 s = none) :
    parse_time_to_minutes s = 0 ∧
    candidateSlots { av with start_time := s } =
      candidateSlots { av with start_time := "12:00 AM" } := by
  have h0 : parse_time_to_minutes s = 0 := by
    rw [parse_time_to_minutes, h]; rfl
  refine ⟨h0, ?_⟩
  rw [candidateSlots, candidateSlots]
  simp only [h0]
  have h12 : parse_time_to_minutes "12:00 AM" = 0 := by decide
  rw [h12]

/-- Witness for C10: "garbage" does not parse and is treated as midnight. -/
theorem c10_malformed_time_is_midnight_witness :
    parse_time_to_minutes "garbage" = 0 ∧
    candidateSlots ⟨1, 1, 2, "garbage", "01:00 AM", 30, true⟩ =
      candidateSlots ⟨1, 1, 2, "12:00 AM", "01:00 AM", 30, true⟩ :=
  c10_malformed_time_is_midnight "garbage"
    ⟨1, 1, 2, "garbage", "01:00 AM", 30, true⟩ (by decide)

/-! ## Helper lemmas on `updateFirst` -/

theorem updateFirst_length (p : α → Bool) (f : α → α) :
    ∀ l : List α, (updateFirst p f l).length = l.length := by
  intro l
  induction l with
  | nil => rfl
  | cons a as ih =>
    rw [updateFirst]
    by_cases h : p a
    · simp [h]
    · simp [h, ih]

theorem updateFirst_get? (p : α → Bool) (f : α → α) :
    ∀ (l : List α) (i : Nat),
      (updateFirst p f l).get? i = l.get? i ∨
      ∃ a, l.get? i = some a ∧ (updateFirst p f l).get? i = some (f a) := by
  intro l
  induction l with
  | nil => intro i; left; rfl
  | cons a as ih =>
    intro i
    rw [updateFirst]
    by_cases h : p a
    · rw [if_pos h]
      cases i with
      | zero => right; exact ⟨a, rfl, rfl⟩
      | succ j => left; rfl
    · rw [if_neg h]
      cases i with
      | zero => left; rfl
      | succ j => simpa using ih j

theorem updateFirst_find? (p : α → Bool) (f : α → α) :
    ∀ (l : List α) (a : α), l.find? p = some a →
      ∃ i, l.get? i = some a ∧ (updateFirst p f l).get? i = some (f a) := by
  intro l
  induction l with
  | nil => intro a h; cases h
  | cons b bs ih =>
    intro a h
    by_cases hb : p b
    · rw [List.find?_cons_of_pos _ hb] at h
      obtain rfl : b = a := by injection h
      refine ⟨0, rfl, ?_⟩
      rw [updateFirst, if_pos hb]
      rfl
    · rw [List.find?_cons_of_neg _ hb] at h
      obtain ⟨i, h1, h2⟩ := ih a h
      refine ⟨i + 1, h1, ?_⟩
      rw [updateFirst, if_neg hb]
      exact h2

/-! ## C5: no availability row for the weekday -/

/-- C5: for an existing, available doctor and a date whose weekday has no
active availability row, the second slot endpoint returns — never raises — a
result with an empty available-slots list, an empty booked list and the
non-empty message "Doctor is not available on <weekday>". -/
theorem c5_no_availability_row (db : DB) (doctor_id : Nat) (date : Date)
    (doctor : Doctor)
    (hdoc : db.doctors.find? (fun d => d.id == doctor_id && d.is_available) =
      some doctor)
    (hav : findAvailability db doctor_id date.weekday = none) :
    get_available_slots db doctor_id date =
      .ok ⟨doctor_id, doctor.name, none, [], [],
        some ("Doctor is not available on " ++ dayName date.weekday),
        none, none⟩ ∧
    0 < ("Doctor is not available on " ++ dayName date.weekday).length := by
  constructor
  · unfold get_available_slots
    rw [hdoc]
    dsimp only
    rw [hav]
  · rw [String.length_append]
    have h27 : "Doctor is not available on ".length = 27 := by decide
    omega

/-- Witness for C5: a store with one doctor and no availability rows. -/
theorem c5_no_availability_row_witness :
    get_available_slots ⟨[⟨1, "Dr. A", true⟩], [], [], []⟩ 1 ⟨2025, 10, 8⟩ =
      .ok ⟨1, "Dr. A", none, [], [],
        some ("Doctor is not available on "
          ++ dayName (Date.weekday ⟨2025, 10, 8⟩)), none, none⟩ ∧
    0 < ("Doctor is not available on "
      ++ dayName (Date.weekday ⟨2025, 10, 8⟩)).length :=
  c5_no_availability_row ⟨[⟨1, "Dr. A", true⟩], [], [], []⟩ 1 ⟨2025, 10, 8⟩
    ⟨1, "Dr. A", true⟩ (by rfl) (by rfl)

/-! ## C3: booking exclusion and reappearance after cancellation

The route `GET /doctors/{id}/available-slots` is served by the first
registered definition (`get_available_slots_v1`): the router matches routes
in registration order. -/

/-- The two lists a successful v1 slot query returns, in terms of the
booked-appointments query. -/
theorem v1_ok_fields (db : DB) (D : Nat) (T : Date) (r : SlotsV1Result)
    (hok : get_available_slots_v1 db D T = .ok r) :
    r.booked_slots = (bookedAppointments db D T).map (·.appointment_time) ∧
    r.available_slots = all_slots_v1.filter
      (fun s => ¬ s ∈ (bookedAppointments db D T).map (·.appointment_time)) := by
  unfold get_available_slots_v1 at hok
  cases hfd : db.doctors.find? (fun d => d.id == D && d.is_available) with
  | none => rw [hfd] at hok; cases hok
  | some doc =>
    rw [hfd] at hok
    have := Except.ok.inj hok
    subst this
    exact ⟨rfl, rfl⟩

/-- C3: a non-cancelled appointment (doctor D, date T, time S) keeps S out
of the available list and puts it in the booked list; after cancelling it,
if no live booking at S remains, S is available again provided it is a
candidate slot. -/
theorem c3_booking_exclusion (db db' : DB) (D : Nat) (T : Date) (S : String)
    (a : Appointment) (r r' : SlotsV1Result)
    (ha : a ∈ db.appointments) (haD : a.doctor_id = D)
    (haT : a.appointment_date = T) (haS : a.appointment_time = S)
    (hanc : a.status ≠ "cancelled")
    (hok : get_available_slots_v1 db D T = .ok r)
    (_hcancel : cancel_appointment db a.user_id a.id = .ok db')
    (hnone : ∀ b ∈ db'.appointments, b.doctor_id = D →
      b.appointment_date = T → b.status ≠ "cancelled" →
      b.appointment_time ≠ S)
    (hcand : S ∈ all_slots_v1)
    (hok' : get_available_slots_v1 db' D T = .ok r') :
    S ∉ r.available_slots ∧ S ∈ r.booked_slots ∧ S ∈ r'.available_slots := by
  have hf := v1_ok_fields db D T r hok
  have hf' := v1_ok_fields db' D T r' hok'
  have hmem : a ∈ bookedAppointments db D T := by
    rw [bookedAppointments, List.mem_filter]
    refine ⟨ha, ?_⟩
    simp [haD, haT, hanc]
  have hSbooked : S ∈ (bookedAppointments db D T).map (·.appointment_time) :=
    List.mem_map.mpr ⟨a, hmem, haS⟩
  refine ⟨?_, ?_, ?_⟩
  · rw [hf.2]
    intro hSav
    have h2 := (List.mem_filter.mp hSav).2
    simp only [decide_eq_true_eq] at h2
    exact h2 hSbooked
  · rw [hf.1]
    exact hSbooked
  · rw [hf'.2, List.mem_filter]
    refine ⟨hcand, ?_⟩
    simp only [decide_eq_true_eq]
    intro hSb
    obtain ⟨b, hbmem, hbS⟩ := List.mem_map.mp hSb
    rw [bookedAppointments] at hbmem
    have hbfilter := List.mem_filter.mp hbmem
    have hbprops := hbfilter.2
    simp only [Bool.and_eq_true, beq_iff_eq, bne_iff_ne, ne_eq] at hbprops
    exact hnone b hbfilter.1 hbprops.1.1 hbprops.1.2 hbprops.2 hbS

/-- Witness for C3: one doctor, one upcoming appointment at "10:00 AM",
cancelled and queried again. -/
theorem c3_booking_exclusion_witness :
    "10:00 AM" ∉ (["09:00 AM", "09:30 AM", "10:30 AM", "11:00 AM",
      "11:30 AM", "12:00 PM", "12:30 PM", "02:00 PM", "02:30 PM",
      "03:00 PM", "03:30 PM", "04:00 PM", "04:30 PM",
      "05:00 PM"] : List String) ∧
    "10:00 AM" ∈ (["10:00 AM"] : List String) ∧
    "10:00 AM" ∈ all_slots_v1 :=
  c3_booking_exclusion
    ⟨[⟨1, "Dr. A", true⟩], [],
      [⟨1, 7, 1, ⟨2025, 10, 8⟩, "10:00 AM", "General Consultation", "loc",
        "upcoming", "", true⟩], []⟩
    ⟨[⟨1, "Dr. A", true⟩], [],
      [⟨1, 7, 1, ⟨2025, 10, 8⟩, "10:00 AM", "General Consultation", "loc",
        "cancelled", "", false⟩], []⟩
    1 ⟨2025, 10, 8⟩ "10:00 AM"
    ⟨1, 7, 1, ⟨2025, 10, 8⟩, "10:00 AM", "General Consultation", "loc",
      "upcoming", "", true⟩
    ⟨1, "Dr. A",
      ["09:00 AM", "09:30 AM", "10:30 AM", "11:00 AM", "11:30 AM",
       "12:00 PM", "12:30 PM", "02:00 PM", "02:30 PM", "03:00 PM",
       "03:30 PM", "04:00 PM", "04:30 PM", "05:00 PM"], ["10:00 AM"]⟩
    ⟨1, "Dr. A", all_slots_v1, []⟩
    (by decide) rfl rfl rfl (by decide) rfl rfl (by decide) (by decide) rfl

/-! ## C4: the 12-hour reschedule cutoff -/

/-- A store with one upcoming appointment on 2025-10-09 at "11:00 PM". -/
def c4db : DB :=
  ⟨[⟨1, "Dr. A", true⟩], [],
   [⟨1, 1, 1, ⟨2025, 10, 9⟩, "11:00 PM", "General Consultation", "loc",
     "upcoming", "", true⟩], []⟩

/-- 700 minutes before midnight of 2025-10-09 (2025-10-08, 12:20 PM). -/
def c4now : Int :=
  Date.minutes ⟨2025, 10, 9⟩ - 700

/-- C4: at a concrete owned, non-cancelled appointment whose start
(2025-10-09 11:00 PM) is 2080 minutes — well over 12 hours — after `c4now`,
the update neither succeeds nor returns the too-late rejection: the cutoff
check on main.py line 1095 subtracts `datetime.now()` from the `Date`
column's `datetime.date`, CPython raises an uncaught `TypeError`, and the
caller receives a 500. Both outcomes the claim describes are unreachable
once the row is found and not cancelled. -/
theorem c4_update_crashes :
    720 ≤ Date.minutes ⟨2025, 10, 9⟩
        + (parse_time_to_minutes "11:00 PM" : Int) - c4now ∧
    update_appointment c4db 1 1 ⟨none, none, none, some "new note"⟩ c4now =
      .error ⟨500,
        "TypeError: unsupported operand type(s) for -: 'datetime.date' and 'datetime.datetime'"⟩ := by
  constructor
  · decide
  · rfl

/-! ## C6: the 09:00 AM - 05:00 PM / 30-minute scenario

The served route is the first registered definition, whose hardcoded
candidate list has exactly 15 slots; the availability row plays no role in
it. (The second definition would generate 16 candidates for this window:
(1020 - 540) / 30 = 16.) -/

/-- Doctor with a Wednesday 09:00 AM - 05:00 PM, 30-minute availability row
and one upcoming booking at "10:00 AM" on Wednesday 2025-10-08. -/
def c6db : DB :=
  ⟨[⟨1, "Dr. Smith", true⟩],
   [⟨1, 1, 2, "09:00 AM", "05:00 PM", 30, true⟩],
   [⟨1, 1, 1, ⟨2025, 10, 8⟩, "10:00 AM", "General Consultation", "loc",
     "upcoming", "", true⟩], []⟩

/-- C6: on the Wednesday request the served slot endpoint works from 15
candidate slots; "10:00 AM" is missing from the available list and present
in the booked list, leaving 14 available. -/
theorem c6_scenario :
    (⟨2025, 10, 8⟩ : Date).weekday = 2 ∧
    all_slots_v1.length = 15 ∧
    get_available_slots_v1 c6db 1 ⟨2025, 10, 8⟩ =
      .ok ⟨1, "Dr. Smith",
        ["09:00 AM", "09:30 AM", "10:30 AM", "11:00 AM", "11:30 AM",
         "12:00 PM", "12:30 PM", "02:00 PM", "02:30 PM", "03:00 PM",
         "03:30 PM", "04:00 PM", "04:30 PM", "05:00 PM"], ["10:00 AM"]⟩ ∧
    "10:00 AM" ∉ (["09:00 AM", "09:30 AM", "10:30 AM", "11:00 AM",
      "11:30 AM", "12:00 PM", "12:30 PM", "02:00 PM", "02:30 PM",
      "03:00 PM", "03:30 PM", "04:00 PM", "04:30 PM",
      "05:00 PM"] : List String) ∧
    "10:00 AM" ∈ (["10:00 AM"] : List String) :=
  ⟨by decide, by decide, rfl, by decide, by decide⟩

/-! ## C7: status transitions of the lifecycle operations -/

/-- The transition contract one lifecycle step satisfies: every pre-existing
appointment keeps its status or moves to "completed"/"cancelled" (never back
to "upcoming"), and every appointment the step adds starts as "upcoming". -/
def StatusOk (l l' : List Appointment) : Prop :=
  (∀ i a, l.get? i = some a → ∃ a', l'.get? i = some a' ∧
    (a'.status = a.status ∨ a'.status = "completed" ∨
      a'.status = "cancelled")) ∧
  (∀ i a', l.length ≤ i → l'.get? i = some a' → a'.status = "upcoming")

theorem get?_append_lt (l m : List α) :
    ∀ i, i < l.length → (l ++ m).get? i = l.get? i := by
  induction l with
  | nil => intro i h; cases h
  | cons a as ih =>
    intro i h
    cases i with
    | zero => rfl
    | succ j => exact ih j (by simpa using h)

theorem get?_append_ge (l m : List α) :
    ∀ i, l.length ≤ i → (l ++ m).get? i = m.get? (i - l.length) := by
  induction l with
  | nil => intro i _; rfl
  | cons a as ih =>
    intro i h
    cases i with
    | zero => simp at h
    | succ j =>
      have := ih j (by simpa using h)
      simpa using this

theorem statusOk_refl (l : List Appointment) : StatusOk l l := by
  constructor
  · intro i a h
    exact ⟨a, h, Or.inl rfl⟩
  · intro i a' hlen h
    rw [List.get?_eq_none.mpr hlen] at h
    cases h

theorem statusOk_append (l : List Appointment) (x : Appointment)
    (hx : x.status = "upcoming") : StatusOk l (l ++ [x]) := by
  constructor
  · intro i a h
    have hlt : i < l.length := by
      by_contra hge
      rw [List.get?_eq_none.mpr (by omega)] at h
      cases h
    rw [get?_append_lt l [x] i hlt]
    exact ⟨a, h, Or.inl rfl⟩
  · intro i a' hlen h
    rw [get?_append_ge l [x] i hlen] at h
    cases hd : i - l.length with
    | zero =>
      rw [hd] at h
      obtain rfl : x = a' := by injection h
      exact hx
    | succ j =>
      rw [hd] at h
      cases h

theorem statusOk_updateFirst (p : Appointment → Bool)
    (f : Appointment → Appointment)
    (hf : ∀ a, (f a).status = a.status ∨ (f a).status = "completed" ∨
      (f a).status = "cancelled")
    (l : List Appointment) : StatusOk l (updateFirst p f l) := by
  constructor
  · intro i a h
    rcases updateFirst_get? p f l i with hcase | ⟨b, hb1, hb2⟩
    · exact ⟨a, by rw [hcase, h], Or.inl rfl⟩
    · rw [h] at hb1
      injection hb1 with hb1
      subst hb1
      exact ⟨f a, hb2, hf a⟩
  · intro i a' hlen h
    rcases updateFirst_get? p f l i with hcase | ⟨b, hb1, hb2⟩
    · rw [hcase, List.get?_eq_none.mpr hlen] at h
      cases h
    · rw [List.get?_eq_none.mpr hlen] at hb1
      cases hb1

/-- A store with a single cancelled appointment. -/
def c7db : DB :=
  ⟨[⟨1, "Dr. A", true⟩], [],
   [⟨1, 1, 1, ⟨2025, 10, 8⟩, "09:00 AM", "General Consultation", "loc",
     "cancelled", "", false⟩], []⟩

/-- C7 counterexample: complete-appointment on a cancelled appointment moves
it out of the cancelled state to "completed" — there is a resurrection path,
because `complete_appointment` never checks the current status. -/
theorem c7_counterexample :
    (c7db.appointments.get? 0).map (·.status) = some "cancelled" ∧
    ((step c7db (.complete 99 1 none none)).appointments.get? 0).map
      (·.status) = some "completed" := by
  constructor <;> rfl

/-- C7 (amended): every lifecycle operation either leaves an existing
appointment's status unchanged or sets it to "completed" (complete) or
"cancelled" (cancel) — from any current status, so cancelled → completed and
completed → cancelled are reachable; no operation returns an existing
appointment to "upcoming", and every newly created appointment starts as
"upcoming". -/
theorem c7_status_transitions (db : DB) (op : Op) :
    StatusOk db.appointments (step db op).appointments := by
  cases op with
  | create u i req =>
    show StatusOk db.appointments
      ((create_appointment db u i req).toOption.getD db).appointments
    unfold create_appointment
    cases hfd : db.doctors.find? (fun d => d.id == req.doctor_id) with
    | none => exact statusOk_refl _
    | some doc =>
      cases hex : db.appointments.find? (fun a =>
          a.doctor_id == req.doctor_id
            && a.appointment_date == req.appointment_date
            && a.appointment_time == req.appointment_time
            && a.status != "cancelled") with
      | some b => exact statusOk_refl _
      | none => exact statusOk_append _ _ rfl
  | update u i upd now =>
    show StatusOk db.appointments
      ((update_appointment db u i upd now).toOption.getD db).appointments
    unfold update_appointment
    cases hfd : db.appointments.find? (fun a => a.id == i && a.user_id == u) with
    | none => exact statusOk_refl _
    | some a =>
      dsimp only
      by_cases hc : a.status = "cancelled"
      · rw [if_pos hc]; exact statusOk_refl _
      · rw [if_neg hc]; exact statusOk_refl _
  | cancel u i =>
    show StatusOk db.appointments
      ((cancel_appointment db u i).toOption.getD db).appointments
    unfold cancel_appointment
    cases hfd : db.appointments.find? (fun a => a.id == i && a.user_id == u) with
    | none => exact statusOk_refl _
    | some a =>
      exact statusOk_updateFirst _ _ (fun b => Or.inr (Or.inr rfl)) _
  | complete u i d n =>
    show StatusOk db.appointments
      ((complete_appointment db u i d n).toOption.getD db).appointments
    unfold complete_appointment
    cases hfd : db.appointments.find? (fun a => a.id == i) with
    | none => exact statusOk_refl _
    | some a =>
      exact statusOk_updateFirst _ _ (fun b => Or.inr (Or.inl rfl)) _

/-- Witness for the amended C7: cancelling the appointment of `c7db` keeps
its status within the allowed set. -/
theorem c7_status_transitions_witness :
    ∃ a', (step c7db (Op.cancel 1 1)).appointments.get? 0 = some a' ∧
      (a'.status = (⟨1, 1, 1, ⟨2025, 10, 8⟩, "09:00 AM",
          "General Consultation", "loc", "cancelled", "", false⟩ :
            Appointment).status ∨
        a'.status = "completed" ∨ a'.status = "cancelled") :=
  (c7_status_transitions c7db (Op.cancel 1 1)).1 0 _ rfl

/-! ## C9: complete-appointment has no guards -/

/-- C9: for any caller and any existing appointment id — whatever the
owner, the caller, or the current status — `complete_appointment` succeeds,
the result does not depend on the caller at all, the appointment's status
becomes "completed", and exactly one Visit row copying the appointment's
fields is appended. -/
theorem c9_complete_unguarded (db : DB) (current_user appointment_id : Nat)
    (diagnosis notes : Option String) (a : Appointment)
    (hfind : db.appointments.find? (fun b => b.id == appointment_id) =
      some a) :
    ∃ db',
      complete_appointment db current_user appointment_id diagnosis notes =
        .ok db' ∧
      (∀ u : Nat,
        complete_appointment db u appointment_id diagnosis notes = .ok db') ∧
      (∃ i, db.appointments.get? i = some a ∧
        db'.appointments.get? i = some { a with status := "completed" }) ∧
      db'.visits = db.visits ++
        [{ user_id := a.user_id, doctor_id := a.doctor_id,
           visit_date := a.appointment_date,
           time_start := a.appointment_time, time_end := a.appointment_time,
           diagnosis := pyOr diagnosis "General Consultation",
           type := a.type, location := a.location,
           notes := pyOr notes (pyOr (some a.notes) "Appointment completed"),
           status := "completed" }] := by
  refine ⟨{ db with
      appointments := updateFirst (fun b => b.id == appointment_id)
        (fun b => { b with status := "completed" }) db.appointments,
      visits := db.visits ++
        [{ user_id := a.user_id, doctor_id := a.doctor_id,
           visit_date := a.appointment_date,
           time_start := a.appointment_time, time_end := a.appointment_time,
           diagnosis := pyOr diagnosis "General Consultation",
           type := a.type, location := a.location,
           notes := pyOr notes (pyOr (some a.notes) "Appointment completed"),
           status := "completed" }] }, ?_, ?_, ?_, rfl⟩
  · unfold complete_appointment
    rw [hfind]
  · intro u
    unfold complete_appointment
    rw [hfind]
  · exact updateFirst_find? _ _ db.appointments a hfind

/-- Witness for C9: completing the cancelled appointment of `c7db` as an
unrelated caller succeeds. -/
theorem c9_complete_unguarded_witness :
    ∃ db',
      complete_appointment c7db 42 1 none none = .ok db' ∧
      (∀ u : Nat, complete_appointment c7db u 1 none none = .ok db') ∧
      (∃ i, c7db.appointments.get? i =
          some ⟨1, 1, 1, ⟨2025, 10, 8⟩, "09:00 AM", "General Consultation",
            "loc", "cancelled", "", false⟩ ∧
        db'.appointments.get? i =
          some ⟨1, 1, 1, ⟨2025, 10, 8⟩, "09:00 AM", "General Consultation",
            "loc", "completed", "", false⟩) ∧
      db'.visits = c7db.visits ++
        [{ user_id := 1, doctor_id := 1, visit_date := ⟨2025, 10, 8⟩,
           time_start := "09:00 AM", time_end := "09:00 AM",
           diagnosis := pyOr none "General Consultation",
           type := "General Consultation", location := "loc",
           notes := pyOr none (pyOr (some "") "Appointment completed"),
           status := "completed" }] :=
  c9_complete_unguarded c7db 42 1 none none
    ⟨1, 1, 1, ⟨2025, 10, 8⟩, "09:00 AM", "General Consultation", "loc",
      "cancelled", "", false⟩ rfl

/-! ## C8: the chat reply never throws and flags degraded modes -/

set_option maxRecDepth 8192 in
/-- C8: `ai_reply` is total (it returns a `ChatResult`, there is no error
channel), and its `mode` field classifies every outcome: with the model
unconfigured it answers from the static keyword table with mode
"fallback"; with the model configured, a failing call yields mode
"error_fallback" and a successful call yields the model's reply with no
mode flag. -/
theorem c8_chat_modes (aiAvailable : Bool)
    (modelCall : String → Except String String) (conv : List ChatTurn)
    (message conversation_id : String) (user_context : Option UserCtx) :
    ((ai_reply aiAvailable modelCall conv message conversation_id
        user_context).1.mode = none ∨
      (ai_reply aiAvailable modelCall conv message conversation_id
        user_context).1.mode = some "fallback" ∨
      (ai_reply aiAvailable modelCall conv message conversation_id
        user_context).1.mode = some "error_fallback") ∧
    (aiAvailable = false →
      (ai_reply aiAvailable modelCall conv message conversation_id
        user_context).1.mode = some "fallback" ∧
      ((ai_reply aiAvailable modelCall conv message conversation_id
          user_context).1.reply = fallbackReply message ∨
        (ai_reply aiAvailable modelCall conv message conversation_id
          user_context).1.reply =
            fallbackReply message ++ fallbackActionNote) ∧
      fallbackReply message ∈ fallback_responses.map (·.2)) ∧
    (∀ e, aiAvailable = true →
      modelCall (build_full_prompt (detect_action_intent message) conv
        user_context message) = .error e →
      (ai_reply aiAvailable modelCall conv message conversation_id
        user_context).1.mode = some "error_fallback" ∧
      (ai_reply aiAvailable modelCall conv message conversation_id
        user_context).1.error = some e ∧
      (ai_reply aiAvailable modelCall conv message conversation_id
        user_context).1.reply = errorFallbackReply message) ∧
    (∀ rep, aiAvailable = true →
      modelCall (build_full_prompt (detect_action_intent message) conv
        user_context message) = .ok rep →
      (ai_reply aiAvailable modelCall conv message conversation_id
        user_context).1.mode = none ∧
      (ai_reply aiAvailable modelCall conv message conversation_id
        user_context).1.reply = rep) := by
  have hfb : fallbackReply message ∈ fallback_responses.map (·.2) := by
    unfold fallbackReply
    cases hf : fallback_responses.find?
        (fun kv => strContains message.toLower kv.1) with
    | some kv =>
      exact List.mem_map.mpr ⟨kv, List.mem_of_find?_eq_some hf, rfl⟩
    | none => decide
  cases aiAvailable with
  | false =>
    refine ⟨Or.inr (Or.inl rfl), ?_, ?_, ?_⟩
    · intro _
      refine ⟨rfl, ?_, hfb⟩
      have hred : (ai_reply false modelCall conv message conversation_id
          user_context).1.reply =
            (if (detect_action_intent message).isSome then
              fallbackReply message ++ fallbackActionNote
            else fallbackReply message) := by
        unfold ai_reply
        rw [if_pos (by simp)]
      by_cases h : (detect_action_intent message).isSome
      · right
        rw [hred, if_pos h]
      · left
        rw [hred, if_neg h]
    · intro e h
      simp at h
    · intro rep h
      simp at h
  | true =>
    cases hcall : modelCall (build_full_prompt (detect_action_intent message)
        conv user_context message) with
    | ok rep =>
      have hred : ai_reply true modelCall conv message conversation_id
          user_context = (⟨rep, conversation_id, none, none,
            some "gemini-2.0-flash-exp", none,
            some (detect_action_intent message).isSome,
            detect_action_intent message⟩,
          let conversation := conv ++ [⟨"user", message⟩, ⟨"assistant", rep⟩]
          if conversation.length > 20 then
            conversation.drop (conversation.length - 20)
          else conversation) := by
        unfold ai_reply
        rw [if_neg (by simp)]
        dsimp only
        rw [hcall]
      refine ⟨Or.inl (by rw [hred]), ?_, ?_, ?_⟩
      · intro hfalse
        simp at hfalse
      · intro e _ he
        exact Except.noConfusion he
      · intro r _ hr
        injection hr with hr
        subst hr
        rw [hred]
        exact ⟨rfl, rfl⟩
    | error e =>
      have hred : ai_reply true modelCall conv message conversation_id
          user_context = (⟨errorFallbackReply message, conversation_id,
            some "error_fallback", none, none, some e, none, none⟩, conv) := by
        unfold ai_reply
        rw [if_neg (by simp)]
        dsimp only
        rw [hcall]
      refine ⟨Or.inr (Or.inr (by rw [hred])), ?_, ?_, ?_⟩
      · intro hfalse
        simp at hfalse
      · intro e' _ he
        injection he with he
        subst he
        rw [hred]
        exact ⟨rfl, rfl, rfl⟩
      · intro r _ hr
        exact Except.noConfusion hr

/-- Witness for C8: with the model unavailable the reply to "hello" comes
from the static table with mode "fallback". -/
theorem c8_chat_modes_witness :
    (ai_reply false (fun _ => Except.error "boom") [] "hello" "c"
      none).1.mode = some "fallback" ∧
    ((ai_reply false (fun _ => Except.error "boom") [] "hello" "c"
        none).1.reply = fallbackReply "hello" ∨
      (ai_reply false (fun _ => Except.error "boom") [] "hello" "c"
        none).1.reply = fallbackReply "hello" ++ fallbackActionNote) ∧
    fallbackReply "hello" ∈ fallback_responses.map (·.2) :=
  (c8_chat_modes false (fun _ => Except.error "boom") [] "hello" "c"
    none).2.1 rfl

end SW
